import Mathlib

/-!
Shallow embedding of the autograph repository parts covered by the claims:
`signer/contentsignaturepki/upload.go` (upload, uploadToS3, writeLocalFile,
GetX5U) and the apk2 signer (New, SignFile) whose source is embedded in
`docs/architecture.rst`.

Go standard-library and third-party behaviour that the code calls out to
(url.Parse, the HTTP client, pem.Decode, x509.ParseCertificate,
x509 chain verification, sha256, tempfile creation, the apksigner
subprocess) is modelled by explicit oracle parameters; the control flow,
error construction and effect ordering of the repository functions
themselves are transcribed from the source.

One behaviour of the `github.com/pkg/errors` library matters and is
modelled faithfully: `errors.Wrap(err, msg)` returns nil when `err` is
nil. At the three PEM-decode failure sites of GetX5U the wrapped `err`
is nil at that point, so no error is produced there.
-/

namespace Autograph

/-- Model of Go byte strings at the granularity the code observes. -/
abbrev Bytes := List Nat

/-- Bool version of list containment of a contiguous sublist, used to model
Go `strings.Contains`. -/
def listContainsSub (sub s : List Char) : Bool :=
  (List.range (s.length + 1)).any (fun i => List.isPrefixOf sub (List.drop i s))

/-- Model of Go `strings.Contains s sub`. -/
def goStringsContains (s sub : String) : Bool :=
  listContainsSub sub.data s.data

namespace ContentSignaturePKI

/-- The parts of a parsed Go `url.URL` that upload.go reads. -/
structure GoURL where
  scheme : String
  host : String
  path : String
deriving DecidableEq

/-- One PEM block as returned by Go `pem.Decode`. -/
structure PemBlock where
  type : String
  bytes : Bytes
deriving DecidableEq

/-- A byte body as observed through repeated `pem.Decode` calls: the
sequence of well-formed PEM blocks it contains, followed by any trailing
bytes after the last block (`trailing` nonempty models a nonempty rest
that decodes to no further block). -/
structure PemBody where
  blocks : List PemBlock
  trailing : Bytes
deriving DecidableEq

/-- Model of Go `pem.Decode`: returns the first block and the rest of the
input, or none when no block remains. -/
def pemDecode : PemBody → Option (PemBlock × PemBody)
  | ⟨[], _⟩ => none
  | ⟨b :: bs, t⟩ => some (b, ⟨bs, t⟩)

/-- Whether a remaining body has length zero, modelling Go `len(rest) != 0`
checks (negated). -/
def PemBody.isEmptyBytes (b : PemBody) : Bool :=
  b.blocks.isEmpty && b.trailing.isEmpty

/-- An x509 certificate, abstracted to its DER bytes. -/
structure Cert where
  der : Bytes
deriving DecidableEq

/-- Oracle for the Go x509 library calls made by GetX5U:
`parseCertificate` models `x509.ParseCertificate`; `verify ee inters roots`
models `ee.Verify` with the given intermediate and root pools and the
Code-Signing extended key usage. -/
structure X509Lib where
  parseCertificate : Bytes → Except String Cert
  verify : Cert → List Cert → List Cert → Bool

/-- The distinct error exits of GetX5U, one constructor per return site in
the source. The three PEM-decode sites carry no constructor: there the Go
code runs `errors.Wrap(nil, ...)`, which yields a nil error. -/
inductive ChainErr where
  | urlParse (msg : String)
  | retrieve (msg : String)
  | status (code : Nat) (text : String)
  | readBody (msg : String)
  | parseEE (msg : String)
  | parseInter (msg : String)
  | parseRoot (msg : String)
  | trailing
  | verifyFailed (msg : String)
deriving DecidableEq

/-- Outcome of the HTTP GET performed by GetX5U: either the client call
fails, or a response arrives with a status code, status text, and a body
whose read may itself fail. -/
inductive HttpGetResult where
  | err (msg : String)
  | resp (status : Nat) (statusText : String) (read : Except String PemBody)

/-- Embedding of GetX5U from upload.go. The `urlParse` argument is the
outcome of `url.Parse(x5u)` and `fetch` the outcome of the HTTP GET (the
file-scheme transport registration only changes how the fetch is served,
not the logic modelled here). Mirrors the Go named returns
`(certs, err)`: several error exits return the certificates accumulated
so far, and the three PEM-decode failure exits return a nil error because
`errors.Wrap` is applied to a nil `err`. -/
def GetX5U (lib : X509Lib) (urlParse : Except String GoURL)
    (fetch : HttpGetResult) : List Cert × Option ChainErr :=
  match urlParse with
  | .error m => ([], some (.urlParse ("failed to parse chain upload location: " ++ m)))
  | .ok _ =>
    match fetch with
    | .err m => ([], some (.retrieve ("failed to retrieve x5u: " ++ m)))
    | .resp status statusText read =>
      if status ≠ 200 then ([], some (.status status statusText))
      else
        match read with
        | .error m => ([], some (.readBody ("failed to parse x5u body: " ++ m)))
        | .ok body =>
          match pemDecode body with
          | none => ([], none)
          | some (b1, rest1) =>
            if b1.type ≠ "CERTIFICATE" then ([], none)
            else
              match lib.parseCertificate b1.bytes with
              | .error m => ([], some (.parseEE ("failed to parse ee certificate from chain: " ++ m)))
              | .ok ee =>
                match pemDecode rest1 with
                | none => ([ee], none)
                | some (b2, rest2) =>
                  if b2.type ≠ "CERTIFICATE" then ([ee], none)
                  else
                    match lib.parseCertificate b2.bytes with
                    | .error m =>
                      ([ee], some (.parseInter ("failed to parse intermediate issuer certificate from chain: " ++ m)))
                    | .ok inter =>
                      match pemDecode rest2 with
                      | none => ([ee, inter], none)
                      | some (b3, rest3) =>
                        if b3.type ≠ "CERTIFICATE" then ([ee, inter], none)
                        else
                          match lib.parseCertificate b3.bytes with
                          | .error m =>
                            ([ee, inter], some (.parseRoot ("failed to parse root certificate from chain: " ++ m)))
                          | .ok root =>
                            if ¬ rest3.isEmptyBytes then
                              ([ee, inter], some .trailing)
                            else if lib.verify ee [inter] [root] then
                              ([ee, inter, root], none)
                            else
                              ([ee, inter, root], some (.verifyFailed "failed to verify certificate chain"))

/-- Filesystem and object-store effects performed by the upload path, as
observable operations with their arguments as the code passes them. -/
inductive FsOp where
  | mkdirAll (path : String) (mode : Nat)
  | writeFile (path : String) (data : String) (mode : Nat)
  | s3Upload (bucket key acl data contentType contentDisposition : String)
deriving DecidableEq

/-- Oracle outcomes for the OS calls of writeLocalFile: the `os.Stat`
error (none means the path exists), and the errors of `os.MkdirAll` and
`ioutil.WriteFile`. -/
structure FsWorld where
  statErr : Option String
  mkdirErr : Option String
  writeErr : Option String
deriving DecidableEq

/-- Oracle outcome for the S3 uploader call. -/
structure S3World where
  uploadErr : Option String
deriving DecidableEq

/-- Embedding of writeLocalFile from upload.go: stat the target path; if
the error mentions a missing file, MkdirAll with 0755; then WriteFile at
`target.path ++ name` with mode 0755. Returns the attempted operations
and the Go error. -/
def writeLocalFile (data name : String) (target : GoURL) (w : FsWorld) :
    List FsOp × Option String :=
  match w.statErr with
  | none => ([.writeFile (target.path ++ name) data 0o755], w.writeErr)
  | some msg =>
    if goStringsContains msg "no such file or directory" then
      match w.mkdirErr with
      | some m => ([.mkdirAll target.path 0o755], some ("failed to make directory: " ++ m))
      | none =>
        ([.mkdirAll target.path 0o755, .writeFile (target.path ++ name) data 0o755], w.writeErr)
    else ([], some msg)

/-- Embedding of uploadToS3 from upload.go: one PUT with bucket the URL
host, key the URL path concatenated with the name, ACL public-read,
content type binary/octet-stream, disposition attachment. -/
def uploadToS3 (data name : String) (target : GoURL) (w : S3World) :
    List FsOp × Option String :=
  ([.s3Upload target.host (target.path ++ name) "public-read" data
      "binary/octet-stream" "attachment"], w.uploadErr)

/-- Embedding of upload from upload.go: parse the chain upload location
and dispatch on its scheme. -/
def upload (chainUploadLocation : Except String GoURL) (data name : String)
    (fsw : FsWorld) (s3w : S3World) : List FsOp × Option String :=
  match chainUploadLocation with
  | .error m => ([], some ("failed to parse chain upload location: " ++ m))
  | .ok u =>
    if u.scheme = "s3" then uploadToS3 data name u s3w
    else if u.scheme = "file" then writeLocalFile data name u fsw
    else ([], some ("unsupported upload scheme " ++ u.scheme))

/-- Modelled from the spec wording: a retrieved body PEM-parses as exactly
three CERTIFICATE blocks (end-entity, intermediate, root), each parsing
as a certificate, with no trailing bytes after the root. Used to state
the claims about well-formed chains; GetX5U above is the code. -/
def specParseChain (lib : X509Lib) (body : PemBody) :
    Option (Cert × Cert × Cert) :=
  match body.blocks, body.trailing with
  | [b1, b2, b3], [] =>
    if b1.type = "CERTIFICATE" && b2.type = "CERTIFICATE" && b3.type = "CERTIFICATE" then
      match lib.parseCertificate b1.bytes with
      | .error _ => none
      | .ok a =>
        match lib.parseCertificate b2.bytes with
        | .error _ => none
        | .ok b =>
          match lib.parseCertificate b3.bytes with
          | .error _ => none
          | .ok c => some (a, b, c)
    else none
  | _, _ => none

/-- A concrete x509 oracle for closed instances: every DER parses to a
certificate wrapping its bytes, and every chain verifies. -/
def lib0 : X509Lib :=
  { parseCertificate := fun b => .ok ⟨b⟩
    verify := fun _ _ _ => true }

/-- A concrete x509 oracle whose verification rejects every chain. -/
def libReject : X509Lib :=
  { parseCertificate := fun b => .ok ⟨b⟩
    verify := fun _ _ _ => false }

/-- A concrete parsed x5u URL for closed instances. -/
def u0 : GoURL := ⟨"https", "example.com", "/chains/ee.pem"⟩

/-- A concrete well-formed three-certificate body. -/
def goodBody : PemBody :=
  ⟨[⟨"CERTIFICATE", [1]⟩, ⟨"CERTIFICATE", [2]⟩, ⟨"CERTIFICATE", [3]⟩], []⟩

end ContentSignaturePKI

namespace APK2

/-- Go type switch classes for the parsed private key: the code only
distinguishes `*ecdsa.PrivateKey` from everything else. -/
inductive PrivateKeyKind where
  | ecdsa
  | rsa
  | other
deriving DecidableEq

/-- An abstract parsed private key: its Go dynamic type class and an
identity distinguishing key values. -/
structure PrivateKey where
  kind : PrivateKeyKind
  keyId : Nat
deriving DecidableEq

/-- The signer.Configuration fields the apk2 signer reads. -/
structure Configuration where
  type : String
  id : String
  privateKey : String
  certificate : String
deriving DecidableEq

/-- Oracle for the crypto library calls of the apk2 signer:
`getPrivateKey` models `conf.GetPrivateKey()` on the configured key
material, `marshalPKCS8` models `x509.MarshalPKCS8PrivateKey`. -/
structure CryptoLib where
  getPrivateKey : String → Except String PrivateKey
  marshalPKCS8 : PrivateKey → Except String Bytes

/-- The constructed APK2Signer state, as set by New. -/
structure APK2Signer where
  type : String
  id : String
  privateKey : String
  certificate : String
  minSdkVersion : String
  pkcs8Key : Bytes
deriving DecidableEq

/-- The constant Type tag of the apk2 signer package. -/
def apk2Type : String := "apk2"

/-- Embedding of New from the apk2 signer: validate the configuration in
source order (type tag, ID, private key presence, key parsing, minimum
SDK from the key type, PKCS8 marshalling, certificate presence) and
either return the constructed signer or the Go error message. -/
def New (lib : CryptoLib) (conf : Configuration) : Except String APK2Signer :=
  if conf.type ≠ apk2Type then
    .error ("apk2: invalid type \"" ++ conf.type ++ "\", must be \"" ++ apk2Type ++ "\"")
  else if conf.id = "" then
    .error "apk2: missing signer ID in signer configuration"
  else if conf.privateKey = "" then
    .error "apk2: missing private key in signer configuration"
  else
    match lib.getPrivateKey conf.privateKey with
    | .error m => .error ("apk2: failed to get private key from configuration: " ++ m)
    | .ok priv =>
      match lib.marshalPKCS8 priv with
      | .error m => .error ("apk2: failed to encode private key to pkcs8: " ++ m)
      | .ok key =>
        if conf.certificate = "" then
          .error "apk2: missing public cert in signer configuration"
        else
          .ok ⟨conf.type, conf.id, conf.privateKey, conf.certificate,
            (match priv.kind with | .ecdsa => "18" | _ => "9"), key⟩

/-- Observable file and process events of SignFile, with the arguments
the code passes (tempfile creation, writes with their mode argument,
removals, the apksigner invocation, the final read back). -/
inductive FileEv where
  | createTemp (name : String)
  | write (name : String) (mode : Nat)
  | remove (name : String)
  | run (args : List String)
  | readBack (name : String)
deriving DecidableEq

/-- Oracle outcomes for the OS interactions of one SignFile call: the
three `ioutil.TempFile` calls (error or the random suffix the OS appends
to the pattern), the two checked `ioutil.WriteFile` calls, the apksigner
subprocess (error plus combined output), and the final `ioutil.ReadFile`. -/
structure ExecWorld where
  keyTempErr : Option String
  keySuffix : String
  keyWriteErr : Option String
  certTempErr : Option String
  certSuffix : String
  certWriteErr : Option String
  apkTempErr : Option String
  apkSuffix : String
  cmdErr : Option String
  cmdOutput : String
  readErr : Option String
  signedApk : Bytes

/-- The name of the private-key tempfile of one SignFile call: the
pattern `apk2_<id>.key` with the random suffix the OS appends. -/
def keyTempName (s : APK2Signer) (w : ExecWorld) : String :=
  "apk2_" ++ s.id ++ ".key" ++ w.keySuffix

/-- The name of the certificate tempfile of one SignFile call. -/
def certTempName (s : APK2Signer) (w : ExecWorld) : String :=
  "apk2_" ++ s.id ++ ".cert" ++ w.certSuffix

/-- The name of the input-APK tempfile of one SignFile call: the pattern
`apk2_input_<sha256 hex of the input>.apk` with the random suffix the OS
appends. -/
def apkTempName (sha256hex : Bytes → String) (file : Bytes)
    (w : ExecWorld) : String :=
  "apk2_input_" ++ sha256hex file ++ ".apk" ++ w.apkSuffix

/-- Embedding of SignFile from the apk2 signer. `sha256hex` models the
`%x` rendering of the SHA-256 digest of the input. Returns the Go result
and the ordered event trace; the deferred `os.Remove` calls run in
last-registered-first order on every return reached after their
registration, which the trace spells out per exit path. The write of the
input APK ignores its error, as the source does. -/
def SignFile (sha256hex : Bytes → String) (s : APK2Signer) (file : Bytes)
    (w : ExecWorld) : Except String Bytes × List FileEv :=
  match w.keyTempErr with
  | some m => (.error ("apk2: failed to create tempfile with private key: " ++ m), [])
  | none =>
    let kName := keyTempName s w
    let kEvs := [FileEv.createTemp kName, FileEv.write kName 0o400]
    match w.keyWriteErr with
    | some m =>
      (.error ("apk2: failed to write private key to tempfile: " ++ m),
       kEvs ++ [.remove kName])
    | none =>
      match w.certTempErr with
      | some m =>
        (.error ("apk2: failed to create tempfile for input to sign: " ++ m),
         kEvs ++ [.remove kName])
      | none =>
        let cName := certTempName s w
        let cEvs := kEvs ++ [FileEv.createTemp cName, FileEv.write cName 0o400]
        match w.certWriteErr with
        | some m =>
          (.error ("apk2: failed to write public cert to tempfile: " ++ m),
           cEvs ++ [.remove cName, .remove kName])
        | none =>
          match w.apkTempErr with
          | some m =>
            (.error ("apk2: failed to create tempfile for input to sign: " ++ m),
             cEvs ++ [.remove cName, .remove kName])
          | none =>
            let aName := apkTempName sha256hex file w
            let aEvs := cEvs ++
              [FileEv.createTemp aName, FileEv.write aName 0o755,
               FileEv.run ["java", "-jar", "/usr/bin/apksigner", "sign",
                 "--key", kName, "--cert", cName,
                 "--v1-signing-enabled", "true", "--v2-signing-enabled", "true",
                 "--min-sdk-version", s.minSdkVersion, aName]]
            match w.cmdErr with
            | some m =>
              (.error ("apk2: failed to sign\n" ++ w.cmdOutput ++ ": " ++ m),
               aEvs ++ [.remove aName, .remove cName, .remove kName])
            | none =>
              let rEvs := aEvs ++ [FileEv.readBack aName]
              match w.readErr with
              | some m =>
                (.error ("apk2: failed to read signed file: " ++ m),
                 rEvs ++ [.remove aName, .remove cName, .remove kName])
              | none =>
                (.ok w.signedApk,
                 rEvs ++ [.remove aName, .remove cName, .remove kName])

/-- A concrete crypto oracle for closed instances: the string "eckey"
parses to an ECDSA key, everything else to an RSA key; marshalling wraps
the key identity. -/
def cryptoLib0 : CryptoLib :=
  { getPrivateKey := fun s => if s = "eckey" then .ok ⟨.ecdsa, 0⟩ else .ok ⟨.rsa, 1⟩
    marshalPKCS8 := fun k => .ok [k.keyId] }

end APK2

open ContentSignaturePKI APK2

/-- C2: a retrieved body that does not PEM-parse as three CERTIFICATE
blocks is meant to yield a CHAIN_MALFORMED error, but at the three
PEM-decode failure sites the code assigns `errors.Wrap(err, ...)` with a
nil `err`, which is nil: a body with zero, one, or two CERTIFICATE
blocks makes GetX5U return a nil error together with the truncated,
unverified certificate list. -/
theorem GetX5U_malformed_pem_returns_nil_error :
    GetX5U lib0 (.ok u0) (.resp 200 "200 OK" (.ok ⟨[], []⟩)) = ([], none) ∧
    GetX5U lib0 (.ok u0) (.resp 200 "200 OK"
      (.ok ⟨[⟨"CERTIFICATE", [1]⟩], []⟩)) = ([⟨[1]⟩], none) ∧
    GetX5U lib0 (.ok u0) (.resp 200 "200 OK"
      (.ok ⟨[⟨"CERTIFICATE", [1]⟩, ⟨"CERTIFICATE", [2]⟩], []⟩)) =
      ([⟨[1]⟩, ⟨[2]⟩], none) :=
  ⟨rfl, rfl, rfl⟩

/-- C4: when the HTTP GET fails, or returns a status other than 200 OK,
GetX5U returns a non-nil error and an empty certificate list. -/
theorem GetX5U_fetch_failure_no_certs (lib : X509Lib) (u : GoURL)
    (fetch : HttpGetResult) :
    (∀ m, fetch = .err m →
      GetX5U lib (.ok u) fetch =
        ([], some (.retrieve ("failed to retrieve x5u: " ++ m)))) ∧
    (∀ status statusText read, fetch = .resp status statusText read →
      status ≠ 200 →
      GetX5U lib (.ok u) fetch = ([], some (.status status statusText))) := by
  constructor
  · intro m h
    subst h
    rfl
  · intro status statusText read h hne
    subst h
    simp [GetX5U, hne]

/-- Witness for C4 at a concrete failing GET and a concrete 404. -/
theorem GetX5U_fetch_failure_no_certs_witness :
    GetX5U lib0 (.ok u0) (.err "connection refused") =
      ([], some (.retrieve ("failed to retrieve x5u: " ++ "connection refused"))) ∧
    GetX5U lib0 (.ok u0) (.resp 404 "404 Not Found" (.ok goodBody)) =
      ([], some (.status 404 "404 Not Found")) :=
  ⟨(GetX5U_fetch_failure_no_certs lib0 u0 _).1 "connection refused" rfl,
   (GetX5U_fetch_failure_no_certs lib0 u0 _).2 404 "404 Not Found"
     (.ok goodBody) rfl (by decide)⟩

/-- C9: upload dispatches exactly on the scheme of the parsed chain
upload location: an unparsable location or an unsupported scheme yields
an error with no filesystem or object-store operation, the s3 scheme
goes to uploadToS3 and the file scheme to writeLocalFile. -/
theorem upload_dispatches_on_scheme (parse : Except String GoURL)
    (data name : String) (fsw : FsWorld) (s3w : S3World) :
    (∀ m, parse = .error m →
      upload parse data name fsw s3w =
        ([], some ("failed to parse chain upload location: " ++ m))) ∧
    (∀ u, parse = .ok u → u.scheme = "s3" →
      upload parse data name fsw s3w = uploadToS3 data name u s3w) ∧
    (∀ u, parse = .ok u → u.scheme = "file" →
      upload parse data name fsw s3w = writeLocalFile data name u fsw) ∧
    (∀ u, parse = .ok u → u.scheme ≠ "s3" → u.scheme ≠ "file" →
      upload parse data name fsw s3w =
        ([], some ("unsupported upload scheme " ++ u.scheme))) := by
  refine ⟨?_, ?_, ?_, ?_⟩
  · intro m h
    subst h
    rfl
  · intro u h hs
    subst h
    simp [upload, hs]
  · intro u h hs
    subst h
    by_cases h3 : u.scheme = "s3"
    · rw [hs] at h3
      exact absurd h3 (by decide)
    · simp [upload, h3, hs]
  · intro u h h3 hf
    subst h
    simp [upload, h3, hf]

/-- Witness for C9 at a concrete unsupported scheme and the two
supported schemes. -/
theorem upload_dispatches_on_scheme_witness :
    upload (.ok ⟨"http", "h", "/p/"⟩) "PEM" "ee.pem" ⟨none, none, none⟩ ⟨none⟩ =
      ([], some ("unsupported upload scheme " ++ "http")) ∧
    upload (.ok ⟨"s3", "bucket", "/p/"⟩) "PEM" "ee.pem" ⟨none, none, none⟩ ⟨none⟩ =
      uploadToS3 "PEM" "ee.pem" ⟨"s3", "bucket", "/p/"⟩ ⟨none⟩ ∧
    upload (.ok ⟨"file", "", "/p/"⟩) "PEM" "ee.pem" ⟨none, none, none⟩ ⟨none⟩ =
      writeLocalFile "PEM" "ee.pem" ⟨"file", "", "/p/"⟩ ⟨none, none, none⟩ :=
  ⟨(upload_dispatches_on_scheme (.ok ⟨"http", "h", "/p/"⟩) "PEM" "ee.pem"
      ⟨none, none, none⟩ ⟨none⟩).2.2.2 ⟨"http", "h", "/p/"⟩ rfl
      (by decide) (by decide),
   (upload_dispatches_on_scheme (.ok ⟨"s3", "bucket", "/p/"⟩) "PEM" "ee.pem"
      ⟨none, none, none⟩ ⟨none⟩).2.1 ⟨"s3", "bucket", "/p/"⟩ rfl rfl,
   (upload_dispatches_on_scheme (.ok ⟨"file", "", "/p/"⟩) "PEM" "ee.pem"
      ⟨none, none, none⟩ ⟨none⟩).2.2.1 ⟨"file", "", "/p/"⟩ rfl rfl⟩

/-- C10: both uploaders address the destination as the exact string
concatenation of the location path and the file name, with no separator
inserted: the S3 object key is the URL path concatenated with the name
in the bucket given by the URL host, and the local write path is the URL
path concatenated with the name. -/
theorem upload_destination_is_path_concat_name (data name : String)
    (target : GoURL) (s3w : S3World) (fsw : FsWorld) :
    (uploadToS3 data name target s3w).1 =
      [.s3Upload target.host (target.path ++ name) "public-read" data
        "binary/octet-stream" "attachment"] ∧
    (∀ p d m, FsOp.writeFile p d m ∈ (writeLocalFile data name target fsw).1 →
      p = target.path ++ name) := by
  constructor
  · rfl
  · intro p d m hmem
    rcases hst : fsw.statErr with _ | msg
    · simp [writeLocalFile, hst] at hmem
      exact hmem.1
    · by_cases hc : goStringsContains msg "no such file or directory" = true
      · rcases hmk : fsw.mkdirErr with _ | m2
        · simp [writeLocalFile, hst, hc, hmk] at hmem
          exact hmem.1
        · simp [writeLocalFile, hst, hc, hmk] at hmem
      · simp [writeLocalFile, hst, hc] at hmem

/-- Witness for C10: with a path lacking a trailing slash the name is
glued onto the path. -/
theorem upload_destination_is_path_concat_name_witness :
    (uploadToS3 "PEM" "ee.pem" ⟨"s3", "bucket", "/chains"⟩ ⟨none⟩).1 =
      [.s3Upload "bucket" ("/chains" ++ "ee.pem") "public-read" "PEM"
        "binary/octet-stream" "attachment"] ∧
    "/chainsee.pem" = "/chains" ++ "ee.pem" :=
  ⟨(upload_destination_is_path_concat_name "PEM" "ee.pem"
      ⟨"s3", "bucket", "/chains"⟩ ⟨none⟩ ⟨none, none, none⟩).1,
   (upload_destination_is_path_concat_name "PEM" "ee.pem"
      ⟨"file", "", "/chains"⟩ ⟨none⟩ ⟨none, none, none⟩).2
     "/chainsee.pem" "PEM" 0o755 (by decide)⟩

/-- A concrete FsWorld in which the stat of the target reports a missing
directory and the directory creation and file write succeed. -/
def fsWorldAbsent : FsWorld :=
  ⟨some "stat /x/: no such file or directory", none, none⟩

/-- C5 counterexample: when the target directory is absent the writer
creates it with mode 0755 but then writes the chain file with mode 0755,
not 0644 as claimed. -/
theorem writeLocalFile_file_mode_is_0755_not_0644 :
    writeLocalFile "PEM" "ee.pem" ⟨"file", "", "/x/"⟩ fsWorldAbsent =
      ([.mkdirAll "/x/" 0o755, .writeFile ("/x/" ++ "ee.pem") "PEM" 0o755], none) ∧
    FsOp.writeFile ("/x/" ++ "ee.pem") "PEM" 0o644 ∉
      (writeLocalFile "PEM" "ee.pem" ⟨"file", "", "/x/"⟩ fsWorldAbsent).1 := by
  constructor
  · rfl
  · decide

/-- C5 amended: the writer creates the target directory with mode 0755
when the stat error reports it absent, and every file write it performs
uses mode 0755. -/
theorem writeLocalFile_modes (data name : String) (target : GoURL)
    (w : FsWorld) :
    (∀ msg, w.statErr = some msg →
      goStringsContains msg "no such file or directory" = true →
      FsOp.mkdirAll target.path 0o755 ∈ (writeLocalFile data name target w).1) ∧
    (∀ p d m, FsOp.writeFile p d m ∈ (writeLocalFile data name target w).1 →
      m = 0o755) := by
  constructor
  · intro msg hst hc
    rcases hmk : w.mkdirErr with _ | m2 <;>
      simp [writeLocalFile, hst, hc, hmk]
  · intro p d m hmem
    rcases hst : w.statErr with _ | msg
    · simp [writeLocalFile, hst] at hmem
      exact hmem.2.2
    · by_cases hc : goStringsContains msg "no such file or directory" = true
      · rcases hmk : w.mkdirErr with _ | m2
        · simp [writeLocalFile, hst, hc, hmk] at hmem
          exact hmem.2.2
        · simp [writeLocalFile, hst, hc, hmk] at hmem
      · simp [writeLocalFile, hst, hc] at hmem

/-- C3: on a retrieved body that parses as exactly three certificates
with no trailing bytes, GetX5U verifies the parsed end entity with the
Code-Signing extended key usage against pools containing exactly the
parsed intermediate and the parsed root, returns the chain without error
when that verification succeeds, and returns the chain-verification
error exactly when it fails. -/
theorem GetX5U_code_signing_verification (lib : X509Lib) (u : GoURL)
    (statusText : String) (body : PemBody) (ee inter root : Cert)
    (h : specParseChain lib body = some (ee, inter, root)) :
    GetX5U lib (.ok u) (.resp 200 statusText (.ok body)) =
      (if lib.verify ee [inter] [root] then ([ee, inter, root], none)
       else ([ee, inter, root],
         some (.verifyFailed "failed to verify certificate chain"))) := by
  rcases body with ⟨blocks, trailing⟩
  rcases blocks with _ | ⟨b1, _ | ⟨b2, _ | ⟨b3, _ | ⟨b4, blocks⟩⟩⟩⟩
  · simp [specParseChain] at h
  · simp [specParseChain] at h
  · simp [specParseChain] at h
  · rcases trailing with _ | ⟨t, ts⟩
    · simp only [specParseChain] at h
      split_ifs at h with ht
      simp only [Bool.and_eq_true, decide_eq_true_eq] at ht
      obtain ⟨⟨ht1, ht2⟩, ht3⟩ := ht
      rcases hp1 : lib.parseCertificate b1.bytes with m | a <;> rw [hp1] at h
      · simp at h
      rcases hp2 : lib.parseCertificate b2.bytes with m | b <;> rw [hp2] at h
      · simp at h
      rcases hp3 : lib.parseCertificate b3.bytes with m | c <;> rw [hp3] at h
      · simp at h
      simp only [Option.some.injEq, Prod.mk.injEq] at h
      obtain ⟨ha, hb, hc⟩ := h
      subst ha
      subst hb
      subst hc
      simp [GetX5U, pemDecode, PemBody.isEmptyBytes, ht1, ht2, ht3, hp1, hp2, hp3]
    · simp [specParseChain] at h
  · simp [specParseChain] at h

/-- Witness for C3 at a concrete well-formed chain with an
accept-everything verifier: the chain is returned without error. -/
theorem GetX5U_code_signing_verification_witness :
    GetX5U lib0 (.ok u0) (.resp 200 "200 OK" (.ok goodBody)) =
      ([⟨[1]⟩, ⟨[2]⟩, ⟨[3]⟩], none) := by
  have h := GetX5U_code_signing_verification lib0 u0 "200 OK" goodBody
    ⟨[1]⟩ ⟨[2]⟩ ⟨[3]⟩ rfl
  simpa using h

/-- C1 counterexample: GetX5U does not guarantee validation to any
pre-configured root. With a verifier that rejects every chain it still
returns a nil error on a body whose only block is not a certificate
(nothing was verified at all), and with an arbitrary third certificate
in the body the chain is accepted with that very certificate as the only
trust anchor. -/
theorem GetX5U_no_error_without_known_root :
    GetX5U libReject (.ok u0)
      (.resp 200 "200 OK" (.ok ⟨[⟨"PUBLIC KEY", [9]⟩], []⟩)) = ([], none) ∧
    GetX5U lib0 (.ok u0)
      (.resp 200 "200 OK" (.ok ⟨[⟨"CERTIFICATE", [1]⟩, ⟨"CERTIFICATE", [2]⟩,
        ⟨"CERTIFICATE", [66]⟩], []⟩)) = ([⟨[1]⟩, ⟨[2]⟩, ⟨[66]⟩], none) :=
  ⟨rfl, rfl⟩

/-- C1 amended: when GetX5U returns without error, either the returned
chain is exactly three certificates and the end entity verified against
the intermediate and root taken from the retrieved chain itself (no
pre-configured root is consulted), or a PEM-decode failure produced a
nil error and the returned chain has at most two unverified
certificates. -/
theorem GetX5U_no_error_characterization (lib : X509Lib)
    (urlParse : Except String GoURL) (fetch : HttpGetResult)
    (certs : List Cert) (h : GetX5U lib urlParse fetch = (certs, none)) :
    (∃ ee inter root, certs = [ee, inter, root] ∧
      lib.verify ee [inter] [root] = true) ∨ certs.length ≤ 2 := by
  rcases urlParse with m | u
  · simp [GetX5U] at h
  rcases fetch with m | ⟨status, stext, read⟩
  · simp [GetX5U] at h
  by_cases hs : status = 200
  swap
  · simp [GetX5U, hs] at h
  subst hs
  rcases read with m | body
  · simp [GetX5U] at h
  rcases body with ⟨blocks, trailing⟩
  rcases blocks with _ | ⟨b1, blocks⟩
  · simp [GetX5U, pemDecode] at h
    right
    subst h
    simp only [List.length_cons, List.length_nil]
    omega
  by_cases h1 : b1.type = "CERTIFICATE"
  swap
  · simp [GetX5U, pemDecode, h1] at h
    right
    subst h
    simp only [List.length_cons, List.length_nil]
    omega
  rcases hp1 : lib.parseCertificate b1.bytes with m | ee
  · simp [GetX5U, pemDecode, h1, hp1] at h
  rcases blocks with _ | ⟨b2, blocks⟩
  · simp [GetX5U, pemDecode, h1, hp1] at h
    right
    subst h
    simp only [List.length_cons, List.length_nil]
    omega
  by_cases h2 : b2.type = "CERTIFICATE"
  swap
  · simp [GetX5U, pemDecode, h1, hp1, h2] at h
    right
    subst h
    simp only [List.length_cons, List.length_nil]
    omega
  rcases hp2 : lib.parseCertificate b2.bytes with m | inter
  · simp [GetX5U, pemDecode, h1, hp1, h2, hp2] at h
  rcases blocks with _ | ⟨b3, blocks⟩
  · simp [GetX5U, pemDecode, h1, hp1, h2, hp2] at h
    right
    subst h
    simp only [List.length_cons, List.length_nil]
    omega
  by_cases h3 : b3.type = "CERTIFICATE"
  swap
  · simp [GetX5U, pemDecode, h1, hp1, h2, hp2, h3] at h
    right
    subst h
    simp only [List.length_cons, List.length_nil]
    omega
  rcases hp3 : lib.parseCertificate b3.bytes with m | root
  · simp [GetX5U, pemDecode, h1, hp1, h2, hp2, h3, hp3] at h
  by_cases he : (PemBody.mk blocks trailing).isEmptyBytes = true
  swap
  · simp [GetX5U, pemDecode, h1, hp1, h2, hp2, h3, hp3, he] at h
  by_cases hv : lib.verify ee [inter] [root] = true
  · left
    refine ⟨ee, inter, root, ?_, hv⟩
    simp [GetX5U, pemDecode, h1, hp1, h2, hp2, h3, hp3, he, hv] at h
    subst h
    rfl
  · simp [GetX5U, pemDecode, h1, hp1, h2, hp2, h3, hp3, he, hv] at h

/-- Witness for the amended C1 at a concrete accepted chain. -/
theorem GetX5U_no_error_characterization_witness :
    (∃ ee inter root, ([⟨[1]⟩, ⟨[2]⟩, ⟨[3]⟩] : List Cert) = [ee, inter, root] ∧
      lib0.verify ee [inter] [root] = true) ∨
    ([⟨[1]⟩, ⟨[2]⟩, ⟨[3]⟩] : List Cert).length ≤ 2 :=
  GetX5U_no_error_characterization lib0 (.ok u0)
    (.resp 200 "200 OK" (.ok goodBody)) [⟨[1]⟩, ⟨[2]⟩, ⟨[3]⟩] rfl

/-- C6: a successful apk2 New stores the PKCS8 marshalling of the parsed
private key and records the minimum Android SDK version determined by
the key type: 18 for an ECDSA private key and 9 for every other type. -/
theorem New_minSdk_and_pkcs8 (lib : CryptoLib) (conf : Configuration)
    (s : APK2Signer) (h : New lib conf = .ok s) :
    ∃ priv, lib.getPrivateKey conf.privateKey = .ok priv ∧
      lib.marshalPKCS8 priv = .ok s.pkcs8Key ∧
      s.minSdkVersion = (if priv.kind = .ecdsa then "18" else "9") := by
  unfold New at h
  split_ifs at h with h1 h2 h3 h5 <;>
    rcases hg : lib.getPrivateKey conf.privateKey with m | priv <;>
    rw [hg] at h <;> simp at h <;>
    rcases hm : lib.marshalPKCS8 priv with m | key <;>
    rw [hm] at h <;> simp at h
  subst h
  refine ⟨priv, rfl, hm, ?_⟩
  rcases priv with ⟨kind, kid⟩
  cases kind <;> simp

/-- The apk2 signer built by New from a concrete valid ECDSA
configuration. -/
def apkSigner0 : APK2Signer :=
  ⟨"apk2", "id1", "eckey", "cert1", "18", [0]⟩

/-- Witness for C6 at a concrete valid ECDSA configuration. -/
theorem New_minSdk_and_pkcs8_witness :
    ∃ priv, cryptoLib0.getPrivateKey "eckey" = .ok priv ∧
      cryptoLib0.marshalPKCS8 priv = .ok apkSigner0.pkcs8Key ∧
      apkSigner0.minSdkVersion = (if priv.kind = .ecdsa then "18" else "9") :=
  New_minSdk_and_pkcs8 cryptoLib0 ⟨"apk2", "id1", "eckey", "cert1"⟩ apkSigner0 rfl

/-- C8 counterexample: New on a configuration with a wrong type tag and
signer ID myid fails, but the diagnostic does not contain the signer ID
anywhere. -/
theorem New_diagnostic_lacks_signer_id :
    New cryptoLib0 ⟨"foo", "myid", "k", "c"⟩ =
      .error "apk2: invalid type \"foo\", must be \"apk2\"" ∧
    goStringsContains "apk2: invalid type \"foo\", must be \"apk2\"" "myid" = false ∧
    New cryptoLib0 ⟨"apk2", "myid", "", "c"⟩ =
      .error "apk2: missing private key in signer configuration" ∧
    goStringsContains "apk2: missing private key in signer configuration" "myid" = false := by
  refine ⟨rfl, by decide, rfl, by decide⟩

/-- C8 amended: every misconfiguration (wrong type tag, missing ID,
missing private key, unparsable key, or missing certificate) makes New
fail with a non-nil error and return no signer instance. -/
theorem New_misconfiguration_errors (lib : CryptoLib) (conf : Configuration)
    (h : conf.type ≠ apk2Type ∨ conf.id = "" ∨ conf.privateKey = "" ∨
      (∃ m, lib.getPrivateKey conf.privateKey = .error m) ∨
      conf.certificate = "") :
    ∃ msg, New lib conf = .error msg := by
  rcases hN : New lib conf with msg | s
  · exact ⟨msg, rfl⟩
  · exfalso
    unfold New at hN
    split_ifs at hN with h1 h2 h3 h5 <;>
      rcases hg : lib.getPrivateKey conf.privateKey with m | priv <;>
      rw [hg] at hN <;> simp at hN <;>
      rcases hm : lib.marshalPKCS8 priv with m | key <;>
      rw [hm] at hN <;> simp at hN
    rcases h with h | h | h | ⟨m, hgm⟩ | h
    · exact h1 h
    · exact h2 h
    · exact h3 h
    · rw [hg] at hgm
      exact Except.noConfusion hgm
    · exact h5 h

/-- Witness for the amended C8 at a concrete configuration missing its
signer ID. -/
theorem New_misconfiguration_errors_witness :
    ∃ msg, New cryptoLib0 ⟨"apk2", "", "k", "c"⟩ = .error msg :=
  New_misconfiguration_errors cryptoLib0 ⟨"apk2", "", "k", "c"⟩
    (Or.inr (Or.inl rfl))

/-- Helper: any string glued between two others is contained in the
concatenation, in the sense of the Go strings.Contains model. -/
theorem goStringsContains_middle (pre mid post : String) :
    goStringsContains (pre ++ mid ++ post) mid = true := by
  unfold goStringsContains listContainsSub
  rw [List.any_eq_true]
  refine ⟨pre.data.length, ?_, ?_⟩
  · rw [List.mem_range]
    have hd : (pre ++ mid ++ post).data = pre.data ++ (mid.data ++ post.data) := by
      rw [String.data_append, String.data_append, List.append_assoc]
    rw [hd, List.length_append]
    omega
  · have hd : (pre ++ mid ++ post).data = pre.data ++ (mid.data ++ post.data) := by
      rw [String.data_append, String.data_append, List.append_assoc]
    rw [hd, List.drop_left, List.isPrefixOf_iff_prefix]
    exact List.prefix_append mid.data post.data

/-- Helper: the event trace of one SignFile call takes one of five
shapes, one per family of exit paths. -/
theorem SignFile_trace_shapes (sha256hex : Bytes → String) (s : APK2Signer)
    (file : Bytes) (w : ExecWorld) :
    (SignFile sha256hex s file w).2 = [] ∨
    (SignFile sha256hex s file w).2 =
      [.createTemp (keyTempName s w), .write (keyTempName s w) 0o400,
       .remove (keyTempName s w)] ∨
    (SignFile sha256hex s file w).2 =
      [.createTemp (keyTempName s w), .write (keyTempName s w) 0o400,
       .createTemp (certTempName s w), .write (certTempName s w) 0o400,
       .remove (certTempName s w), .remove (keyTempName s w)] ∨
    (SignFile sha256hex s file w).2 =
      [.createTemp (keyTempName s w), .write (keyTempName s w) 0o400,
       .createTemp (certTempName s w), .write (certTempName s w) 0o400,
       .createTemp (apkTempName sha256hex file w),
       .write (apkTempName sha256hex file w) 0o755,
       .run ["java", "-jar", "/usr/bin/apksigner", "sign",
         "--key", keyTempName s w, "--cert", certTempName s w,
         "--v1-signing-enabled", "true", "--v2-signing-enabled", "true",
         "--min-sdk-version", s.minSdkVersion, apkTempName sha256hex file w],
       .remove (apkTempName sha256hex file w), .remove (certTempName s w),
       .remove (keyTempName s w)] ∨
    (SignFile sha256hex s file w).2 =
      [.createTemp (keyTempName s w), .write (keyTempName s w) 0o400,
       .createTemp (certTempName s w), .write (certTempName s w) 0o400,
       .createTemp (apkTempName sha256hex file w),
       .write (apkTempName sha256hex file w) 0o755,
       .run ["java", "-jar", "/usr/bin/apksigner", "sign",
         "--key", keyTempName s w, "--cert", certTempName s w,
         "--v1-signing-enabled", "true", "--v2-signing-enabled", "true",
         "--min-sdk-version", s.minSdkVersion, apkTempName sha256hex file w],
       .readBack (apkTempName sha256hex file w),
       .remove (apkTempName sha256hex file w), .remove (certTempName s w),
       .remove (keyTempName s w)] := by
  rcases w with ⟨kte, ks, kwe, cte, cs, cwe, ate, asf, ce, co, re, sa⟩
  rcases kte with _ | m
  · rcases kwe with _ | m
    · rcases cte with _ | m
      · rcases cwe with _ | m
        · rcases ate with _ | m
          · rcases ce with _ | m
            · rcases re with _ | m
              · exact Or.inr (Or.inr (Or.inr (Or.inr rfl)))
              · exact Or.inr (Or.inr (Or.inr (Or.inr rfl)))
            · exact Or.inr (Or.inr (Or.inr (Or.inl rfl)))
          · exact Or.inr (Or.inr (Or.inl rfl))
        · exact Or.inr (Or.inr (Or.inl rfl))
      · exact Or.inr (Or.inl rfl)
    · exact Or.inr (Or.inl rfl)
  · exact Or.inl rfl

/-- C7: the input-APK tempfile name of SignFile contains the SHA-256
digest of the input (its tempfile pattern is built from the digest, so
per-invocation names differ for different content), every name created
as a tempfile is one of the three per-invocation names, the private-key
tempfile is written with mode 0400, and every created tempfile is
removed on every exit path, error or success. -/
theorem SignFile_temp_hygiene (sha256hex : Bytes → String) (s : APK2Signer)
    (file : Bytes) (w : ExecWorld) :
    goStringsContains (apkTempName sha256hex file w) (sha256hex file) = true ∧
    (∀ n, FileEv.createTemp n ∈ (SignFile sha256hex s file w).2 →
      n = keyTempName s w ∨ n = certTempName s w ∨
        n = apkTempName sha256hex file w) ∧
    (w.keyTempErr = none →
      FileEv.write (keyTempName s w) 0o400 ∈ (SignFile sha256hex s file w).2) ∧
    (∀ n, FileEv.createTemp n ∈ (SignFile sha256hex s file w).2 →
      FileEv.remove n ∈ (SignFile sha256hex s file w).2) := by
  refine ⟨?_, ?_, ?_, ?_⟩
  · have h := goStringsContains_middle "apk2_input_" (sha256hex file)
      (".apk" ++ w.apkSuffix)
    unfold apkTempName
    rw [← String.append_assoc] at h
    exact h
  · intro n hn
    obtain h | h | h | h | h := SignFile_trace_shapes sha256hex s file w <;>
      rw [h] at hn <;> simp at hn <;> tauto
  · intro hk
    rcases w with ⟨kte, ks, kwe, cte, cs, cwe, ate, asf, ce, co, re, sa⟩
    simp only at hk
    subst hk
    rcases kwe with _ | m
    · rcases cte with _ | m
      · rcases cwe with _ | m
        · rcases ate with _ | m
          · rcases ce with _ | m
            · rcases re with _ | m <;> simp [SignFile]
            · simp [SignFile]
          · simp [SignFile]
        · simp [SignFile]
      · simp [SignFile]
    · simp [SignFile]
  · intro n hn
    obtain h | h | h | h | h := SignFile_trace_shapes sha256hex s file w <;>
      rw [h] at hn ⊢ <;> simp at hn ⊢ <;> tauto

/-- A concrete world in which every OS interaction of SignFile
succeeds. -/
def execWorld0 : ExecWorld :=
  ⟨none, "123", none, none, "456", none, none, "789", none, "ok", none, [5]⟩

/-- A concrete digest oracle for closed instances. -/
def sha0 : Bytes → String := fun _ => "d1d2"

/-- Witness for C7 at a concrete successful invocation. -/
theorem SignFile_temp_hygiene_witness :
    FileEv.write (keyTempName apkSigner0 execWorld0) 0o400 ∈
      (SignFile sha0 apkSigner0 [7] execWorld0).2 ∧
    FileEv.remove (apkTempName sha0 [7] execWorld0) ∈
      (SignFile sha0 apkSigner0 [7] execWorld0).2 :=
  ⟨(SignFile_temp_hygiene sha0 apkSigner0 [7] execWorld0).2.2.1 rfl,
   (SignFile_temp_hygiene sha0 apkSigner0 [7] execWorld0).2.2.2
     (apkTempName sha0 [7] execWorld0) (by decide)⟩

/-- Witness for the amended C5 at the concrete absent-directory world. -/
theorem writeLocalFile_modes_witness :
    FsOp.mkdirAll "/x/" 0o755 ∈
      (writeLocalFile "PEM" "ee.pem" ⟨"file", "", "/x/"⟩ fsWorldAbsent).1 ∧
    (493 : Nat) = 0o755 :=
  ⟨(writeLocalFile_modes "PEM" "ee.pem" ⟨"file", "", "/x/"⟩ fsWorldAbsent).1
      "stat /x/: no such file or directory" rfl (by decide),
   (writeLocalFile_modes "PEM" "ee.pem" ⟨"file", "", "/x/"⟩ fsWorldAbsent).2
      ("/x/" ++ "ee.pem") "PEM" 493 (by decide)⟩

end Autograph
